import Mathlib

/-!
Verification of the mediseen-hms-backend controllers: a shallow embedding of
the tenant-scope guard, audit recorder, billing payment application, inventory
stock adjustment, bootstrap setup gate, payment webhook handler, bed
assignment, and dashboard bed-occupancy aggregation, with theorems settling
the specified behavioral claims.

Conventions of the embedding:
- TypeScript strings stay String; enum-like values (roles, statuses) stay the
  string literals used by the source.
- Nullable / possibly-undefined values are Option.
- JavaScript numbers carrying money are modelled as rationals; stock counts
  as integers.
- A handler is a pure function from a request and a database state to a
  response plus the new state (or an explicit list of write batches where a
  claim is about atomicity).
- JavaScript truthiness tests on strings and numbers are modelled by the
  functions strTruthy and numTruthy below.
-/

/-- Truthiness of an optional string in JavaScript: undefined / null and the
empty string are falsy. -/
def strTruthy : Option String → Bool
  | none => false
  | some s => s ≠ ""

/-- Truthiness of an optional number in JavaScript: undefined / null and zero
are falsy. -/
def numTruthy : Option ℚ → Bool
  | none => false
  | some q => q ≠ 0

/-- The authenticated principal attached to a request by the auth middleware
(req.user): id, role string and nullable hospitalId, as in the JWT payload of
src/unnamed/part_013. -/
structure UserCtx where
  id : String
  role : String
  hospitalId : Option String
  deriving DecidableEq

/-- Outcome of a controller handler: an HTTP status code with either a result
value or an error message, mirroring res.status(...).json(...). -/
inductive HandlerResult (α : Type) where
  | success (code : ℕ) (val : α)
  | failure (code : ℕ) (errMsg : String)
  deriving DecidableEq

/-- Tenant Scope Guard as implemented by the fetch-then-check pattern at every
controller site, e.g. src/src/controllers/admissionController.ts lines
250-254 and src/unnamed/part_010 lines 250-253:

  if (req.user.role !== 'SUPER_ADMIN' && resource.hospitalId !== req.user.hospitalId)
    res.status(403)

Access is allowed iff the role is SUPER_ADMIN or the two hospital ids agree.
Both sides may be null (JavaScript: null !== null is false), which happens on
the user-resource sites of src/unnamed/part_009 lines 1102 and 1133 where the
target user row has a nullable hospitalId. -/
def tenantAllows (role : String) (principalTenantId resourceTenantId : Option String) : Bool :=
  role == "SUPER_ADMIN" || principalTenantId == resourceTenantId

/-- Whether a called helper returned normally to its caller or propagated an
exception. -/
inductive CallResult where
  | returned
  | threw
  deriving DecidableEq

/-- Payload accepted by the audit recorder (src/unnamed/part_014, interface
AuditLogData); details is kept as its serialized form. -/
structure AuditLogData where
  userId : Option String
  hospitalId : Option String
  action : String
  entity : String
  entityId : Option String
  details : Option String
  ipAddress : Option String
  userAgent : Option String
  deriving DecidableEq

/-- The underlying storage append prisma.auditLog.create: it either persists
the row or throws. The storeFails flag abstracts the storage fault. -/
def auditLogCreate (storeFails : Bool) (rows : List AuditLogData) (d : AuditLogData) :
    Except String (List AuditLogData) :=
  if storeFails then Except.error "storage failure" else Except.ok (rows ++ [d])

/-- createAuditLog from src/unnamed/part_014 lines 14-35: the storage append
runs inside try/catch; on error the failure is logged to the console and the
function returns normally, so the caller never sees an exception. -/
def createAuditLog (storeFails : Bool) (rows : List AuditLogData) (d : AuditLogData) :
    List AuditLogData × CallResult :=
  match auditLogCreate storeFails rows d with
  | Except.ok newRows => (newRows, CallResult.returned)
  | Except.error _ => (rows, CallResult.returned)

/-- Semantics of a prisma update by unique id: every row whose id matches is
replaced by the new row (ids being unique, at most one row changes). -/
def replaceById {α : Type} (idOf : α → String) (iid : String) (newVal : α) (xs : List α) :
    List α :=
  xs.map (fun x => if idOf x == iid then newVal else x)

theorem find?_replaceById {α : Type} (idOf : α → String) (iid : String) (newVal : α)
    (h : (idOf newVal == iid) = true) (xs : List α) :
    (replaceById idOf iid newVal xs).find? (fun x => idOf x == iid) =
      (xs.find? (fun x => idOf x == iid)).map (fun _ => newVal) := by
  induction xs with
  | nil => rfl
  | cons a as ih =>
    by_cases ha : (idOf a == iid) = true
    · have ha2 : idOf a = iid := by simpa using ha
      simp [replaceById, List.find?_cons, ha2, h]
    · simp only [replaceById, List.map_cons] at ih ⊢
      rw [if_neg (by simp [ha])]
      rw [List.find?_cons_of_neg _ (by simp [ha]), List.find?_cons_of_neg _ (by simp [ha])]
      exact ih

section TenantScopeClaims

/-- C1 counterexample: the claim says that when the tenant id of the resource
is absent, every non-SUPER_ADMIN principal is denied. The code grants access
to a DOCTOR whose own hospitalId is also null, because null !== null is false
in JavaScript. -/
theorem tenantAllows_absent_both_grants :
    "DOCTOR" ≠ "SUPER_ADMIN" ∧ tenantAllows "DOCTOR" none none = true := by
  decide

/-- C1 (amended): a SUPER_ADMIN principal always passes the tenant scope
guard; every other role passes iff its hospitalId equals the hospitalId of
the resource, where two absent ids compare equal; in particular a
non-distinguished principal that does carry a tenant id is denied whenever
the tenant id of the resource is absent. -/
theorem tenantAllows_policy (role : String) (p r : Option String) :
    tenantAllows "SUPER_ADMIN" p r = true
    ∧ (role ≠ "SUPER_ADMIN" → (tenantAllows role p r = true ↔ p = r))
    ∧ (role ≠ "SUPER_ADMIN" → r = none → ∀ h : String, p = some h →
        tenantAllows role p r = false) := by
  refine ⟨by simp [tenantAllows], ?_, ?_⟩
  · intro hrole
    simp [tenantAllows, hrole]
  · intro hrole hr h hp
    subst hr hp
    simp [tenantAllows, hrole]

/-- C1 witness: the amended policy evaluated at concrete inputs. -/
theorem tenantAllows_policy_witness :
    tenantAllows "SUPER_ADMIN" (some "H1") (some "H2") = true
    ∧ tenantAllows "NURSE" (some "H1") (some "H1") = true
    ∧ tenantAllows "NURSE" (some "H1") none = false := by
  have h1 := (tenantAllows_policy "NURSE" (some "H1") (some "H2")).1
  have h2 := (tenantAllows_policy "NURSE" (some "H1") (some "H1")).2.1 (by decide)
  have h3 := (tenantAllows_policy "NURSE" (some "H1") none).2.2 (by decide) rfl "H1" rfl
  exact ⟨h1, h2.mpr rfl, h3⟩

end TenantScopeClaims

section AuditClaims

/-- C3: createAuditLog returns normally to its caller for every input: when
the storage append succeeds the row is persisted, and when it throws the
failure is swallowed and the audit table is left as it was — in neither case
does the helper propagate the failure. -/
theorem createAuditLog_never_throws (rows : List AuditLogData) (d : AuditLogData) :
    createAuditLog false rows d = (rows ++ [d], CallResult.returned)
    ∧ createAuditLog true rows d = (rows, CallResult.returned) := by
  constructor <;> rfl

end AuditClaims

/-- A billing record row (src/unnamed/part_012): amounts are the rationals
modelling the JavaScript numbers, status is the literal status string. -/
structure BillingRecord where
  id : String
  hospitalId : String
  paidAmount : ℚ
  totalAmount : ℚ
  status : String
  deriving DecidableEq

/-- A payment row appended by addPayment. -/
structure Payment where
  id : String
  billingRecordId : String
  amount : ℚ
  method : String
  reference : Option String
  receivedBy : String
  deriving DecidableEq

/-- The slice of the database touched by the billing controller. -/
structure BillingState where
  billingRecords : List BillingRecord
  payments : List Payment
  auditRows : List AuditLogData
  deriving DecidableEq

/-- Request body of POST addPayment; a status field does not exist on the
request, so the stored status cannot come from the client. -/
structure AddPaymentRequest where
  user : Option UserCtx
  billingRecordId : Option String
  amount : Option ℚ
  method : Option String
  reference : Option String
  deriving DecidableEq

/-- addPayment from src/unnamed/part_012 lines 102-158: validate the body
(JavaScript truthiness on the three required fields), load the billing
record, run the tenant scope guard, append the payment row, then recompute
paidAmount as the prior paidAmount plus the payment amount and derive the new
status (PAID when paid covers the total, else PARTIAL when paid is positive,
else the prior status), update the record and fire the audit recorder. The
details JSON blob of the audit row is elided as none. -/
def addPayment (auditFails : Bool) (s : BillingState) (rq : AddPaymentRequest) :
    HandlerResult (Payment × BillingRecord) × BillingState :=
  match rq.user with
  | none => (HandlerResult.failure 401 "Authentication required", s)
  | some u =>
    if !(strTruthy rq.billingRecordId) || !(numTruthy rq.amount) || !(strTruthy rq.method) then
      (HandlerResult.failure 400 "Missing required fields", s)
    else
      let bid := rq.billingRecordId.getD ""
      let amount := rq.amount.getD 0
      match s.billingRecords.find? (fun x => x.id == bid) with
      | none => (HandlerResult.failure 404 "Billing record not found", s)
      | some existingBilling =>
        if !(tenantAllows u.role u.hospitalId (some existingBilling.hospitalId)) then
          (HandlerResult.failure 403 "Access denied", s)
        else
          let payment : Payment :=
            { id := "payment-" ++ toString s.payments.length
              billingRecordId := bid
              amount := amount
              method := rq.method.getD ""
              reference := rq.reference
              receivedBy := u.id }
          let newPaidAmount := existingBilling.paidAmount + amount
          let newStatus :=
            if newPaidAmount ≥ existingBilling.totalAmount then "PAID"
            else if newPaidAmount > 0 then "PARTIAL"
            else existingBilling.status
          let updated : BillingRecord :=
            { existingBilling with paidAmount := newPaidAmount, status := newStatus }
          let afterWrite : BillingState :=
            { s with
              payments := s.payments ++ [payment]
              billingRecords := replaceById BillingRecord.id bid updated s.billingRecords }
          let audited := createAuditLog auditFails afterWrite.auditRows
            { userId := some u.id, hospitalId := some existingBilling.hospitalId
              action := "ADD_PAYMENT", entity := "PAYMENT", entityId := some payment.id
              details := none, ipAddress := none, userAgent := none }
          (HandlerResult.success 201 (payment, updated), { afterWrite with auditRows := audited.1 })

section BillingClaims

/-- C4: addPayment on an existing billing record with a truthy payment amount
succeeds; the stored record keeps its id and total, its paidAmount becomes
the prior paidAmount plus the payment amount, and its status is derived from
that sum alone: PAID when the sum reaches the total, PARTIAL when the sum is
positive but short of the total, and the prior status otherwise; the appended
payment row carries exactly the request amount. -/
theorem addPayment_derives_state (auditFails : Bool) (s : BillingState)
    (rq : AddPaymentRequest) (u : UserCtx) (b : BillingRecord)
    (hu : rq.user = some u)
    (hb : strTruthy rq.billingRecordId = true)
    (ha : numTruthy rq.amount = true)
    (hm : strTruthy rq.method = true)
    (hfind : s.billingRecords.find? (fun x => x.id == rq.billingRecordId.getD "") = some b)
    (hten : tenantAllows u.role u.hospitalId (some b.hospitalId) = true) :
    ∃ p r, (addPayment auditFails s rq).1 = HandlerResult.success 201 (p, r)
      ∧ r.id = b.id
      ∧ r.totalAmount = b.totalAmount
      ∧ r.paidAmount = b.paidAmount + rq.amount.getD 0
      ∧ (b.totalAmount ≤ r.paidAmount → r.status = "PAID")
      ∧ (0 < r.paidAmount → r.paidAmount < b.totalAmount → r.status = "PARTIAL")
      ∧ (r.paidAmount ≤ 0 → r.paidAmount < b.totalAmount → r.status = b.status)
      ∧ p.amount = rq.amount.getD 0 := by
  unfold addPayment
  rw [hu]
  simp only [hb, ha, hm, Bool.not_true, Bool.false_or, Bool.or_self, Bool.false_eq_true,
    if_false, hfind, hten, if_neg (by simp : ¬((!true : Bool) = true))]
  refine ⟨_, _, rfl, rfl, rfl, rfl, ?_, ?_, ?_, rfl⟩
  · intro hle
    simp only at hle ⊢
    rw [if_pos hle]
  · intro hpos hlt
    simp only at hpos hlt ⊢
    rw [if_neg (by exact not_le.mpr hlt), if_pos hpos]
  · intro hnp hlt
    simp only at hnp hlt ⊢
    rw [if_neg (by exact not_le.mpr hlt), if_neg (by exact not_lt.mpr hnp)]

/-- C4 witness: a 40 payment against a 100 bill with nothing yet paid. -/
theorem addPayment_derives_state_witness :
    ∃ p r,
      (addPayment false
        { billingRecords := [{ id := "b1", hospitalId := "H1", paidAmount := 0,
                               totalAmount := 100, status := "PENDING" }],
          payments := [], auditRows := [] }
        { user := some { id := "u1", role := "BILLING_OFFICER", hospitalId := some "H1" },
          billingRecordId := some "b1", amount := some 40, method := some "CASH",
          reference := none }).1 = HandlerResult.success 201 (p, r)
      ∧ r.id = "b1"
      ∧ r.totalAmount = (100 : ℚ)
      ∧ r.paidAmount = (0 : ℚ) + (40 : ℚ)
      ∧ ((100 : ℚ) ≤ r.paidAmount → r.status = "PAID")
      ∧ ((0 : ℚ) < r.paidAmount → r.paidAmount < (100 : ℚ) → r.status = "PARTIAL")
      ∧ (r.paidAmount ≤ (0 : ℚ) → r.paidAmount < (100 : ℚ) → r.status = "PENDING")
      ∧ p.amount = (40 : ℚ) := by
  exact addPayment_derives_state false _ _
    { id := "u1", role := "BILLING_OFFICER", hospitalId := some "H1" }
    { id := "b1", hospitalId := "H1", paidAmount := 0, totalAmount := 100, status := "PENDING" }
    rfl (by decide) (by decide) (by decide) (by decide) (by decide)

end BillingClaims

/-- An inventory item row (src/unnamed/part_010); stock is the integer count. -/
structure InventoryItem where
  id : String
  hospitalId : String
  name : String
  stock : Int
  deriving DecidableEq

/-- The slice of the database touched by the inventory controller. -/
structure InventoryState where
  items : List InventoryItem
  auditRows : List AuditLogData
  deriving DecidableEq

/-- Request of PATCH updateStock: the path id plus body adjustment and type.
Only an undefined adjustment is rejected (the source tests
adjustment === undefined, not truthiness), while type is truthiness-tested. -/
structure UpdateStockRequest where
  user : Option UserCtx
  id : String
  adjustment : Option Int
  typ : Option String
  deriving DecidableEq

/-- The stock computation of updateStock (src/unnamed/part_010 lines 255-273):
ADD adds the adjustment, SUBTRACT subtracts it and rejects a negative result
with the early return res.status(400) Insufficient stock, SET replaces the
value outright, and any other type string leaves the stock as it was. -/
def computeNewStock (typ : String) (stock adjustment : Int) : Except String Int :=
  if typ = "ADD" then Except.ok (stock + adjustment)
  else if typ = "SUBTRACT" then
    if stock - adjustment < 0 then Except.error "Insufficient stock"
    else Except.ok (stock - adjustment)
  else if typ = "SET" then Except.ok adjustment
  else Except.ok stock

/-- updateStock from src/unnamed/part_010 lines 226-296: validate, load the
item, run the tenant scope guard, compute the new stock (early 400 return on
insufficient stock), persist it and fire the audit recorder. -/
def updateStock (auditFails : Bool) (s : InventoryState) (rq : UpdateStockRequest) :
    HandlerResult InventoryItem × InventoryState :=
  match rq.user with
  | none => (HandlerResult.failure 401 "Authentication required", s)
  | some u =>
    match rq.adjustment with
    | none => (HandlerResult.failure 400 "Adjustment and type are required", s)
    | some adjustment =>
      if !(strTruthy rq.typ) then
        (HandlerResult.failure 400 "Adjustment and type are required", s)
      else
        match s.items.find? (fun x => x.id == rq.id) with
        | none => (HandlerResult.failure 404 "Inventory item not found", s)
        | some existingItem =>
          if !(tenantAllows u.role u.hospitalId (some existingItem.hospitalId)) then
            (HandlerResult.failure 403 "Access denied", s)
          else
            match computeNewStock (rq.typ.getD "") existingItem.stock adjustment with
            | Except.error msg => (HandlerResult.failure 400 msg, s)
            | Except.ok newStock =>
              let updated : InventoryItem := { existingItem with stock := newStock }
              let afterWrite : InventoryState :=
                { s with items := replaceById InventoryItem.id rq.id updated s.items }
              let audited := createAuditLog auditFails afterWrite.auditRows
                { userId := some u.id, hospitalId := some existingItem.hospitalId
                  action := "UPDATE_STOCK", entity := "INVENTORY_ITEM"
                  entityId := some existingItem.id, details := none
                  ipAddress := none, userAgent := none }
              (HandlerResult.success 200 updated, { afterWrite with auditRows := audited.1 })

section InventoryClaims

/-- C5: with an existing item visible to the caller, updateStock SET x
replaces the stock by x, a subsequent ADD y on the resulting state yields
stock x plus y, and a SUBTRACT whose adjustment exceeds the current stock is
rejected with the 400 Insufficient stock error leaving the state untouched. -/
theorem updateStock_modes (auditFails auditFails2 : Bool) (s : InventoryState)
    (u : UserCtx) (iid : String) (x y z : Int) (it : InventoryItem)
    (hfind : s.items.find? (fun i => i.id == iid) = some it)
    (hten : tenantAllows u.role u.hospitalId (some it.hospitalId) = true)
    (hz : it.stock < z) :
    (∃ it1 it2,
      (updateStock auditFails s ⟨some u, iid, some x, some "SET"⟩).1 =
          HandlerResult.success 200 it1
      ∧ it1.stock = x
      ∧ (updateStock auditFails2
          (updateStock auditFails s ⟨some u, iid, some x, some "SET"⟩).2
          ⟨some u, iid, some y, some "ADD"⟩).1 = HandlerResult.success 200 it2
      ∧ it2.stock = x + y)
    ∧ updateStock auditFails s ⟨some u, iid, some z, some "SUBTRACT"⟩ =
        (HandlerResult.failure 400 "Insufficient stock", s) := by
  have hid : (it.id == iid) = true :=
    @List.find?_some _ (fun i => i.id == iid) it s.items hfind
  have hfind2 :
      (replaceById InventoryItem.id iid { it with stock := x } s.items).find?
        (fun i => i.id == iid) = some { it with stock := x } := by
    rw [find?_replaceById _ _ _ (by simpa using hid), hfind]
    rfl
  refine ⟨⟨{ it with stock := x }, { it with stock := x + y }, ?_, rfl, ?_, rfl⟩, ?_⟩
  · simp [updateStock, strTruthy, computeNewStock, hfind, hten]
  · simp [updateStock, strTruthy, computeNewStock, hfind, hten, hfind2]
  · simp [updateStock, strTruthy, computeNewStock, hfind, hten,
      show it.stock - z < 0 by omega]

/-- C5 witness: SET 7 then ADD 5 gives 12, and SUBTRACT 11 from stock 3 is
rejected leaving the state unchanged. -/
theorem updateStock_modes_witness :
    (∃ it1 it2,
      (updateStock false ⟨[⟨"i1", "H1", "gauze", 3⟩], []⟩
        ⟨some ⟨"u1", "PHARMACIST", some "H1"⟩, "i1", some 7, some "SET"⟩).1 =
          HandlerResult.success 200 it1
      ∧ it1.stock = 7
      ∧ (updateStock false
          (updateStock false ⟨[⟨"i1", "H1", "gauze", 3⟩], []⟩
            ⟨some ⟨"u1", "PHARMACIST", some "H1"⟩, "i1", some 7, some "SET"⟩).2
          ⟨some ⟨"u1", "PHARMACIST", some "H1"⟩, "i1", some 5, some "ADD"⟩).1 =
            HandlerResult.success 200 it2
      ∧ it2.stock = 7 + 5)
    ∧ updateStock false ⟨[⟨"i1", "H1", "gauze", 3⟩], []⟩
        ⟨some ⟨"u1", "PHARMACIST", some "H1"⟩, "i1", some 11, some "SUBTRACT"⟩ =
        (HandlerResult.failure 400 "Insufficient stock", ⟨[⟨"i1", "H1", "gauze", 3⟩], []⟩) := by
  exact updateStock_modes false false ⟨[⟨"i1", "H1", "gauze", 3⟩], []⟩
    ⟨"u1", "PHARMACIST", some "H1"⟩ "i1" 7 5 11 ⟨"i1", "H1", "gauze", 3⟩
    (by decide) (by decide) (by decide)

end InventoryClaims

/-- The Paystack webhook handler of src/unnamed/part_003 lines 172-222.
Arguments: hmacSha512Hex abstracts crypto.createHmac sha512 digest hex (a
function of the secret key and the message, here JSON.stringify of the body);
webhookSecret is the PAYSTACK_WEBHOOK_SECRET environment variable;
signatureHeader is the x-paystack-signature request header; processEvent is
the outcome of the switch over the event type inside the try block, which may
throw. Result: the HTTP status code answered, paired with whether the event
processing block was entered. The source checks the signature only when both
the secret and the header are truthy; on mismatch it answers 401 before any
processing; otherwise it runs the switch inside try/catch and answers 200
from both the try and the catch arm. -/
def webhookHandler (hmacSha512Hex : String → String → String)
    (webhookSecret signatureHeader : Option String) (rawBody : String)
    (processEvent : Except String Unit) : ℕ × Bool :=
  if strTruthy webhookSecret && strTruthy signatureHeader then
    if hmacSha512Hex (webhookSecret.getD "") rawBody ≠ signatureHeader.getD "" then
      (401, false)
    else
      match processEvent with
      | Except.ok _ => (200, true)
      | Except.error _ => (200, true)
  else
    match processEvent with
    | Except.ok _ => (200, true)
    | Except.error _ => (200, true)

section WebhookClaims

/-- C7: with a configured (truthy) webhook secret and a presented (truthy)
signature header, a signature that does not match the HMAC of the body is
answered 401 without processing the event, while a matching signature is
answered 200 with the event processed even when the internal processing
throws. -/
theorem webhookHandler_divergence (hmacSha512Hex : String → String → String)
    (sec sig rawBody errMsg : String)
    (hsec : sec ≠ "") (hsig : sig ≠ "") :
    (hmacSha512Hex sec rawBody ≠ sig →
      ∀ processEvent, webhookHandler hmacSha512Hex (some sec) (some sig) rawBody
        processEvent = (401, false))
    ∧ (hmacSha512Hex sec rawBody = sig →
      webhookHandler hmacSha512Hex (some sec) (some sig) rawBody
        (Except.error errMsg) = (200, true)) := by
  constructor
  · intro hne processEvent
    simp [webhookHandler, strTruthy, hsec, hsig, hne]
  · intro heq
    simp [webhookHandler, strTruthy, hsec, hsig, heq]

/-- C7 witness: a mismatching and a matching signature under a concrete HMAC
function. -/
theorem webhookHandler_divergence_witness :
    webhookHandler (fun k m => k ++ "|" ++ m) (some "K") (some "bad") "BODY"
      (Except.ok ()) = (401, false)
    ∧ webhookHandler (fun k m => k ++ "|" ++ m) (some "K") (some "K|BODY") "BODY"
      (Except.error "boom") = (200, true) := by
  exact ⟨(webhookHandler_divergence (fun k m => k ++ "|" ++ m) "K" "bad" "BODY" "boom"
      (by decide) (by decide)).1 (by decide) (Except.ok ()),
    (webhookHandler_divergence (fun k m => k ++ "|" ++ m) "K" "K|BODY" "BODY" "boom"
      (by decide) (by decide)).2 (by decide)⟩

/-- C8: the webhook skips signature verification entirely whenever the secret
is not configured or the signature header is absent (both in the JavaScript
truthiness sense), processing the event and answering 200 whatever the
processing outcome; dually, 401 arises exactly when a truthy secret and a
truthy signature exist and the HMAC of the body differs from the signature. -/
theorem webhookHandler_skip_verification (hmacSha512Hex : String → String → String)
    (webhookSecret signatureHeader : Option String) (rawBody : String)
    (processEvent : Except String Unit) :
    (strTruthy webhookSecret = false ∨ strTruthy signatureHeader = false →
      webhookHandler hmacSha512Hex webhookSecret signatureHeader rawBody
        processEvent = (200, true))
    ∧ ((webhookHandler hmacSha512Hex webhookSecret signatureHeader rawBody
          processEvent).1 = 401 ↔
        strTruthy webhookSecret = true ∧ strTruthy signatureHeader = true ∧
          hmacSha512Hex (webhookSecret.getD "") rawBody ≠ signatureHeader.getD "") := by
  constructor
  · intro h
    rcases h with h | h <;>
      simp [webhookHandler, h] <;> cases processEvent <;> simp
  · by_cases h1 : strTruthy webhookSecret = true
    · by_cases h2 : strTruthy signatureHeader = true
      · by_cases h3 :
          hmacSha512Hex (webhookSecret.getD "") rawBody = signatureHeader.getD ""
        · simp only [webhookHandler, h1, h2, Bool.and_self, if_true, h3]
          cases processEvent <;> simp [h3]
        · simp [webhookHandler, h1, h2, h3]
      · simp only [Bool.not_eq_true] at h2
        simp [webhookHandler, h1, h2]
        cases processEvent <;> simp
    · simp only [Bool.not_eq_true] at h1
      simp [webhookHandler, h1]
      cases processEvent <;> simp

/-- C8 witness: with the secret configured but no signature header presented,
a throwing processing run is still acknowledged 200 with the event processed. -/
theorem webhookHandler_skip_verification_witness :
    webhookHandler (fun k m => k ++ "|" ++ m) (some "K") none "BODY"
      (Except.error "boom") = (200, true) := by
  exact (webhookHandler_skip_verification (fun k m => k ++ "|" ++ m) (some "K") none "BODY"
    (Except.error "boom")).1 (Or.inr (by decide))

end WebhookClaims

/-- A ward row: beds reach their hospital through room and ward. -/
structure Ward where
  id : String
  hospitalId : String
  deriving DecidableEq

/-- A room row inside a ward. -/
structure Room where
  id : String
  wardId : String
  deriving DecidableEq

/-- A bed row (src schema): status is the literal status string, and the two
current pointers mirror currentPatientId / currentAdmissionId. -/
structure Bed where
  id : String
  roomId : String
  status : String
  currentPatientId : Option String
  currentAdmissionId : Option String
  deriving DecidableEq

/-- An admission row (the fields assignBed reads and writes). -/
structure Admission where
  id : String
  hospitalId : String
  patientId : String
  wardId : Option String
  roomId : Option String
  bedId : Option String
  assignedWardManager : Option String
  status : String
  deriving DecidableEq

/-- The slice of the database touched by the admission controller and the
dashboard bed counts. -/
structure WardState where
  wards : List Ward
  rooms : List Room
  beds : List Bed
  admissions : List Admission
  deriving DecidableEq

/-- Resolution of prisma.bed.findUnique include room.ward: the room of the
bed and the ward of that room. -/
def bedRoomWard (s : WardState) (bed : Bed) : Option (Room × Ward) :=
  (s.rooms.find? (fun r => r.id == bed.roomId)).bind fun room =>
    (s.wards.find? (fun w => w.id == room.wardId)).map fun ward => (room, ward)

/-- The single-row writes assignBed issues against the database. -/
inductive AdmWrite where
  | bedSet (bedId status : String) (currentPatientId currentAdmissionId : Option String)
  | admissionAssign (admissionId wardId roomId bedId managerId : String)
  deriving DecidableEq

/-- Effect of one write on the database state. -/
def applyAdmWrite (s : WardState) : AdmWrite → WardState
  | AdmWrite.bedSet bid st cp ca =>
      { s with beds := s.beds.map fun b =>
          if b.id == bid then
            { b with status := st, currentPatientId := cp, currentAdmissionId := ca }
          else b }
  | AdmWrite.admissionAssign aid w r bid mgr =>
      { s with admissions := s.admissions.map fun a =>
          if a.id == aid then
            { a with
                wardId := some w, roomId := some r, bedId := some bid,
                assignedWardManager := some mgr, status := "ADMITTED" }
          else a }

/-- One atomic unit of the execution: a single awaited prisma write, or the
write list of one prisma transaction, committed all-or-nothing. -/
def applyBatch (s : WardState) (ws : List AdmWrite) : WardState :=
  ws.foldl applyAdmWrite s

/-- Sequential commit of the atomic batches a handler issued; every prefix of
the batch list is a state the database passes through (and is left in if the
execution stops between batches). -/
def applyBatches (s : WardState) (bs : List (List AdmWrite)) : WardState :=
  bs.foldl applyBatch s

/-- Request of POST assignBed: path id of the admission and body bedId. -/
structure AssignBedRequest where
  user : Option UserCtx
  id : String
  bedId : Option String
  deriving DecidableEq

/-- assignBed from src/src/controllers/admissionController.ts lines 224-366:
authenticate, validate bedId, load the admission, run the tenant scope
guard, load the bed with its room and ward (a dangling room or ward relation
would make the include throw into the catch-all 500), require the bed to be
in the same hospital and AVAILABLE, then issue the writes: when the
admission already holds a bed, that bed is released by a standalone awaited
update (its own atomic batch, lines 285-294), and only the admission update
plus the new-bed occupation run inside prisma.dollar-transaction (one atomic
batch, lines 297-343). The returned batch list makes that split explicit. -/
def assignBed (s : WardState) (rq : AssignBedRequest) :
    HandlerResult Admission × List (List AdmWrite) :=
  match rq.user with
  | none => (HandlerResult.failure 401 "Authentication required", [])
  | some u =>
    if !(strTruthy rq.bedId) then (HandlerResult.failure 400 "Bed ID is required", [])
    else
      let bid := rq.bedId.getD ""
      match s.admissions.find? (fun a => a.id == rq.id) with
      | none => (HandlerResult.failure 404 "Admission not found", [])
      | some existingAdmission =>
        if !(tenantAllows u.role u.hospitalId (some existingAdmission.hospitalId)) then
          (HandlerResult.failure 403 "Access denied", [])
        else
          match s.beds.find? (fun b => b.id == bid) with
          | none => (HandlerResult.failure 404 "Bed not found", [])
          | some bed =>
            match bedRoomWard s bed with
            | none => (HandlerResult.failure 500 "Failed to assign bed", [])
            | some (room, ward) =>
              if ward.hospitalId ≠ existingAdmission.hospitalId then
                (HandlerResult.failure 400 "Bed does not belong to the same hospital", [])
              else if bed.status ≠ "AVAILABLE" then
                (HandlerResult.failure 400 "Bed is not available", [])
              else
                let releaseOldBed : List (List AdmWrite) :=
                  match existingAdmission.bedId with
                  | some oldBedId => [[AdmWrite.bedSet oldBedId "AVAILABLE" none none]]
                  | none => []
                let txn : List AdmWrite :=
                  [AdmWrite.admissionAssign rq.id room.wardId bed.roomId bed.id u.id,
                   AdmWrite.bedSet bid "OCCUPIED" (some existingAdmission.patientId)
                     (some rq.id)]
                let updatedAdmission : Admission :=
                  { existingAdmission with
                      wardId := some room.wardId, roomId := some bed.roomId,
                      bedId := some bed.id, assignedWardManager := some u.id,
                      status := "ADMITTED" }
                (HandlerResult.success 200 updatedAdmission, releaseOldBed ++ [txn])

/-- Whether a handler outcome is an error response. -/
def HandlerResult.isFailure {α : Type} : HandlerResult α → Bool
  | HandlerResult.failure _ _ => true
  | HandlerResult.success _ _ => false

section AdmissionClaims

/-- C9: when every bed matching the requested bed id has a status other than
AVAILABLE (for instance a bed OCCUPIED by another admission), assignBed
answers an error response and issues no write at all, so the database state
is unchanged and the bed stays with its current holder until released. -/
theorem assignBed_requires_available (s : WardState) (rq : AssignBedRequest)
    (hbed : ∀ b ∈ s.beds, (b.id == rq.bedId.getD "") = true → b.status ≠ "AVAILABLE") :
    (assignBed s rq).2 = []
    ∧ ((assignBed s rq).1).isFailure = true
    ∧ applyBatches s (assignBed s rq).2 = s := by
  unfold assignBed
  cases hu : rq.user with
  | none => exact ⟨rfl, rfl, rfl⟩
  | some u =>
    dsimp only
    by_cases h1 : (!strTruthy rq.bedId) = true
    · rw [if_pos h1]; exact ⟨rfl, rfl, rfl⟩
    · rw [if_neg h1]
      cases hadm : s.admissions.find? (fun a => a.id == rq.id) with
      | none => exact ⟨rfl, rfl, rfl⟩
      | some adm =>
        dsimp only
        by_cases h2 : (!tenantAllows u.role u.hospitalId (some adm.hospitalId)) = true
        · rw [if_pos h2]; exact ⟨rfl, rfl, rfl⟩
        · rw [if_neg h2]
          cases hbd : s.beds.find? (fun b => b.id == rq.bedId.getD "") with
          | none => exact ⟨rfl, rfl, rfl⟩
          | some bed =>
            dsimp only
            cases hrw : bedRoomWard s bed with
            | none => exact ⟨rfl, rfl, rfl⟩
            | some rw0 =>
              obtain ⟨room, ward⟩ := rw0
              dsimp only
              by_cases h3 : ward.hospitalId ≠ adm.hospitalId
              · rw [if_pos h3]; exact ⟨rfl, rfl, rfl⟩
              · rw [if_neg h3]
                have hmem := List.mem_of_find?_eq_some hbd
                have hpred : (bed.id == rq.bedId.getD "") = true :=
                  @List.find?_some _ (fun b => b.id == rq.bedId.getD "") bed s.beds hbd
                rw [if_pos (hbed bed hmem hpred)]
                exact ⟨rfl, rfl, rfl⟩

/-- C9 witness: bed B1 is OCCUPIED by admission A1; assigning B1 to the
pending admission A2 is rejected with no writes. -/
theorem assignBed_requires_available_witness :
    (assignBed
      ⟨[⟨"W1", "H1"⟩], [⟨"R1", "W1"⟩],
        [⟨"B1", "R1", "OCCUPIED", some "P1", some "A1"⟩],
        [⟨"A1", "H1", "P1", some "W1", some "R1", some "B1", some "U0", "ADMITTED"⟩,
         ⟨"A2", "H1", "P2", none, none, none, none, "PENDING"⟩]⟩
      ⟨some ⟨"U1", "WARD_MANAGER", some "H1"⟩, "A2", some "B1"⟩).2 = []
    ∧ ((assignBed
      ⟨[⟨"W1", "H1"⟩], [⟨"R1", "W1"⟩],
        [⟨"B1", "R1", "OCCUPIED", some "P1", some "A1"⟩],
        [⟨"A1", "H1", "P1", some "W1", some "R1", some "B1", some "U0", "ADMITTED"⟩,
         ⟨"A2", "H1", "P2", none, none, none, none, "PENDING"⟩]⟩
      ⟨some ⟨"U1", "WARD_MANAGER", some "H1"⟩, "A2", some "B1"⟩).1).isFailure = true
    ∧ applyBatches
      ⟨[⟨"W1", "H1"⟩], [⟨"R1", "W1"⟩],
        [⟨"B1", "R1", "OCCUPIED", some "P1", some "A1"⟩],
        [⟨"A1", "H1", "P1", some "W1", some "R1", some "B1", some "U0", "ADMITTED"⟩,
         ⟨"A2", "H1", "P2", none, none, none, none, "PENDING"⟩]⟩
      (assignBed
        ⟨[⟨"W1", "H1"⟩], [⟨"R1", "W1"⟩],
          [⟨"B1", "R1", "OCCUPIED", some "P1", some "A1"⟩],
          [⟨"A1", "H1", "P1", some "W1", some "R1", some "B1", some "U0", "ADMITTED"⟩,
           ⟨"A2", "H1", "P2", none, none, none, none, "PENDING"⟩]⟩
        ⟨some ⟨"U1", "WARD_MANAGER", some "H1"⟩, "A2", some "B1"⟩).2 =
      ⟨[⟨"W1", "H1"⟩], [⟨"R1", "W1"⟩],
        [⟨"B1", "R1", "OCCUPIED", some "P1", some "A1"⟩],
        [⟨"A1", "H1", "P1", some "W1", some "R1", some "B1", some "U0", "ADMITTED"⟩,
         ⟨"A2", "H1", "P2", none, none, none, none, "PENDING"⟩]⟩ := by
  exact assignBed_requires_available _ _ (by decide)

/-- The database populated for the atomicity analysis: admission A1 holds bed
B0 (OCCUPIED) and bed B1 of the same ward is AVAILABLE. -/
def demoWardState : WardState :=
  ⟨[⟨"W1", "H1"⟩], [⟨"R1", "W1"⟩],
    [⟨"B0", "R1", "OCCUPIED", some "P1", some "A1"⟩,
     ⟨"B1", "R1", "AVAILABLE", none, none⟩],
    [⟨"A1", "H1", "P1", some "W1", some "R1", some "B0", some "U0", "ADMITTED"⟩]⟩

/-- The request moving admission A1 from bed B0 to bed B1. -/
def demoAssignRequest : AssignBedRequest :=
  ⟨some ⟨"U1", "WARD_MANAGER", some "H1"⟩, "A1", some "B1"⟩

/-- C2 is refuted by the code: moving admission A1 from bed B0 to bed B1
issues TWO atomic units — the standalone release of B0, then the transaction
updating the admission and occupying B1 — and at the boundary between them
the database holds the inconsistent intermediate state in which B0 is
already AVAILABLE while admission A1 still references B0 and B1 is still
AVAILABLE. An execution that stops between the two batches (transaction
failure or crash) leaves exactly this state, contradicting the single
all-or-nothing transaction the claim asserts. -/
theorem assignBed_release_not_atomic :
    (assignBed demoWardState demoAssignRequest).2 =
      [[AdmWrite.bedSet "B0" "AVAILABLE" none none],
       [AdmWrite.admissionAssign "A1" "W1" "R1" "B1" "U1",
        AdmWrite.bedSet "B1" "OCCUPIED" (some "P1") (some "A1")]]
    ∧ (applyBatch demoWardState
        [AdmWrite.bedSet "B0" "AVAILABLE" none none]).beds.find?
          (fun b => b.id == "B0") = some ⟨"B0", "R1", "AVAILABLE", none, none⟩
    ∧ (applyBatch demoWardState
        [AdmWrite.bedSet "B0" "AVAILABLE" none none]).admissions.find?
          (fun a => a.id == "A1") =
        some ⟨"A1", "H1", "P1", some "W1", some "R1", some "B0", some "U0", "ADMITTED"⟩
    ∧ (applyBatch demoWardState
        [AdmWrite.bedSet "B0" "AVAILABLE" none none]).beds.find?
          (fun b => b.id == "B1") = some ⟨"B1", "R1", "AVAILABLE", none, none⟩ := by
  decide

end AdmissionClaims

/-- Math.round of JavaScript on a nonnegative ratio: round half toward
positive infinity, i.e. the floor of the argument plus one half. -/
def jsRound (q : ℚ) : ℤ := ⌊q + 1/2⌋

/-- The bedOccupancy object assembled by getDashboardStats. -/
structure BedOccupancy where
  total : ℕ
  occupied : ℕ
  available : ℤ
  occupancyPercentage : ℤ
  deriving DecidableEq

/-- The occupancy percentage of src/unnamed/part_012 line 553:
totalBeds > 0 ? Math.round((occupiedBeds / totalBeds) * 100) : 0. -/
def occupancyPercentageCalc (totalBeds occupiedBeds : ℕ) : ℤ :=
  if totalBeds > 0 then jsRound ((occupiedBeds : ℚ) / (totalBeds : ℚ) * 100) else 0

/-- The hospital a bed belongs to, through its room and ward (the filter the
prisma.bed.count calls of getDashboardStats express as a nested where). -/
def bedHospitalId (s : WardState) (b : Bed) : Option String :=
  (bedRoomWard s b).map fun rw0 => rw0.2.hospitalId

/-- The bed-occupancy block of getDashboardStats (src/unnamed/part_012 lines
526-555): null unless the principal has a truthy hospitalId, else the count
of the beds of that hospital, the count of those with status OCCUPIED, their
difference, and the guarded rounded percentage. -/
def getDashboardBedOccupancy (s : WardState) (userHospitalId : Option String) :
    Option BedOccupancy :=
  if !(strTruthy userHospitalId) then none
  else
    let hid := userHospitalId.getD ""
    let hospBeds := s.beds.filter (fun b => bedHospitalId s b == some hid)
    let totalBeds := hospBeds.length
    let occupiedBeds := (hospBeds.filter (fun b => b.status == "OCCUPIED")).length
    some { total := totalBeds, occupied := occupiedBeds,
           available := (totalBeds : ℤ) - (occupiedBeds : ℤ),
           occupancyPercentage := occupancyPercentageCalc totalBeds occupiedBeds }

section OccupancyClaims

theorem jsRound_half_up (o t : ℕ) (ht : 0 < t) :
    jsRound ((o : ℚ) / (t : ℚ) * 100) = ((200 * o + t : ℤ)) / ((2 * t : ℕ) : ℤ) := by
  have ht2 : (t : ℚ) ≠ 0 := by
    exact_mod_cast Nat.pos_iff_ne_zero.mp ht
  have key : (o : ℚ) / (t : ℚ) * 100 + 1/2 = ((200 * o + t : ℤ) : ℚ) / ((2 * t : ℕ) : ℚ) := by
    field_simp
    ring
  unfold jsRound
  rw [key, Rat.floor_intCast_div_natCast]

/-- Count of the beds of a tenant, through room and ward. -/
def tenantBedTotal (s : WardState) (hid : String) : ℕ :=
  (s.beds.filter (fun b => bedHospitalId s b == some hid)).length

/-- Count of the OCCUPIED beds of a tenant. -/
def tenantBedOccupied (s : WardState) (hid : String) : ℕ :=
  ((s.beds.filter (fun b => bedHospitalId s b == some hid)).filter
    (fun b => b.status == "OCCUPIED")).length

/-- C10: for a principal with a truthy hospital id, getDashboardStats always
produces a bed-occupancy block whose total and occupied fields are the counts
of the tenant beds and of those with status OCCUPIED; its percentage is 0
(not a division error) when the tenant has zero beds, and otherwise equals
the half-up integer rounding of occupied over total times 100 — expressed
independently as the integer division (200 occupied + total) / (2 total). -/
theorem getDashboardBedOccupancy_percentage (s : WardState) (hid : String)
    (hhid : hid ≠ "") :
    getDashboardBedOccupancy s (some hid) =
      some { total := tenantBedTotal s hid, occupied := tenantBedOccupied s hid,
             available := (tenantBedTotal s hid : ℤ) - (tenantBedOccupied s hid : ℤ),
             occupancyPercentage :=
               occupancyPercentageCalc (tenantBedTotal s hid) (tenantBedOccupied s hid) }
    ∧ (tenantBedTotal s hid = 0 →
        occupancyPercentageCalc (tenantBedTotal s hid) (tenantBedOccupied s hid) = 0)
    ∧ (0 < tenantBedTotal s hid →
        occupancyPercentageCalc (tenantBedTotal s hid) (tenantBedOccupied s hid) =
          ((200 * tenantBedOccupied s hid + tenantBedTotal s hid : ℤ)) /
            ((2 * tenantBedTotal s hid : ℕ) : ℤ)) := by
  refine ⟨?_, ?_, ?_⟩
  · unfold getDashboardBedOccupancy
    rw [if_neg (by simp [strTruthy, hhid])]
    rfl
  · intro h0
    simp [occupancyPercentageCalc, h0]
  · intro hpos
    simp only [occupancyPercentageCalc, if_pos hpos]
    exact jsRound_half_up _ _ hpos

/-- C10 witness: among the two beds of tenant H1 one is OCCUPIED, giving 50
percent; tenant H2 has zero beds and its percentage is 0. -/
theorem getDashboardBedOccupancy_percentage_witness :
    getDashboardBedOccupancy demoWardState (some "H1") =
      some { total := 2, occupied := 1, available := 1, occupancyPercentage := 50 }
    ∧ getDashboardBedOccupancy demoWardState (some "H2") =
      some { total := 0, occupied := 0, available := 0, occupancyPercentage := 0 } := by
  have h1 := (getDashboardBedOccupancy_percentage demoWardState "H1" (by decide)).1
  have h2 := (getDashboardBedOccupancy_percentage demoWardState "H2" (by decide)).1
  have ht1 : tenantBedTotal demoWardState "H1" = 2 := rfl
  have ho1 : tenantBedOccupied demoWardState "H1" = 1 := rfl
  have ht2 : tenantBedTotal demoWardState "H2" = 0 := rfl
  have ho2 : tenantBedOccupied demoWardState "H2" = 0 := rfl
  constructor
  · rw [h1, ht1, ho1]
    norm_num [occupancyPercentageCalc, jsRound]
  · rw [h2, ht2, ho2]
    norm_num [occupancyPercentageCalc, jsRound]

end OccupancyClaims

/-- A user row (the fields initialSetup and the other user writes touch). -/
structure User where
  id : String
  email : String
  password : String
  firstName : String
  lastName : String
  role : String
  hospitalId : Option String
  active : Bool
  deriving DecidableEq

/-- The slice of the database touched by the auth controller: the user table
and the refresh-token table (token paired with userId). -/
structure AuthState where
  users : List User
  refreshTokens : List (String × String)
  deriving DecidableEq

/-- Body of POST initialSetup. -/
structure SetupRequest where
  email : Option String
  password : Option String
  firstName : Option String
  lastName : Option String
  deriving DecidableEq

/-- Modelled from the spec: password hashing (src/utils/password, not under
src/) is an external collaborator per section 1 of the spec; an injective
tagging stands in for the bcrypt hash. -/
def hashPassword (p : String) : String := "hashed:" ++ p

/-- Modelled from the spec: jwt.sign of the access-token payload
(src/unnamed/part_013 delegates to the jsonwebtoken library); a tagging of
the user id stands in for the signed credential. -/
def generateAccessToken (userId : String) : String := "access." ++ userId

/-- Modelled from the spec: jwt.sign of the refresh-token payload; a tagging
of the user id stands in for the signed credential. -/
def generateRefreshToken (userId : String) : String := "refresh." ++ userId

/-- The cuid prisma generates for a created user row, modelled as a fresh
name derived from the current table size. -/
def freshUserId (s : AuthState) : String := "user-" ++ toString s.users.length

/-- The 201 body of initialSetup: both tokens and the created user. -/
structure SetupSuccess where
  accessToken : String
  refreshToken : String
  user : User
  deriving DecidableEq

/-- initialSetup from src/unnamed/part_008 lines 408-483: first count the
users and fail 403 when any exist; then validate the four required fields
and the password length; then create the SUPER_ADMIN user (no hospital,
active), generate both tokens, store the refresh token and answer 201. -/
def initialSetup (s : AuthState) (rq : SetupRequest) :
    HandlerResult SetupSuccess × AuthState :=
  if s.users.length > 0 then
    (HandlerResult.failure 403 "Setup already completed. Users already exist.", s)
  else if !(strTruthy rq.email) || !(strTruthy rq.password) || !(strTruthy rq.firstName) ||
      !(strTruthy rq.lastName) then
    (HandlerResult.failure 400 "Email, password, firstName, and lastName are required", s)
  else if (rq.password.getD "").length < 8 then
    (HandlerResult.failure 400 "Password must be at least 8 characters", s)
  else
    let user : User :=
      { id := freshUserId s, email := rq.email.getD "",
        password := hashPassword (rq.password.getD ""),
        firstName := rq.firstName.getD "", lastName := rq.lastName.getD "",
        role := "SUPER_ADMIN", hospitalId := none, active := true }
    let accessToken := generateAccessToken user.id
    let refreshToken := generateRefreshToken user.id
    (HandlerResult.success 201 ⟨accessToken, refreshToken, user⟩,
      { users := s.users ++ [user],
        refreshTokens := s.refreshTokens ++ [(refreshToken, user.id)] })

/-- The two shapes of write the API ever issues against the user table:
prisma.user.create (initialSetup at src/unnamed/part_008 line 432, createUser
at src/unnamed/part_009 line 944) appends a row, and prisma.user.update
(src/unnamed/part_008 lines 207 and 384, src/unnamed/part_009 lines 1139,
1212 and 1276) maps the row with the given id through a field change. No
route deletes user rows. -/
inductive UserWrite where
  | create (u : User)
  | update (uid : String) (f : User → User)

/-- Effect of one user-table write. -/
def applyUserWrite (us : List User) : UserWrite → List User
  | UserWrite.create u => us ++ [u]
  | UserWrite.update uid f => us.map fun u => if u.id == uid then f u else u

/-- Effect of any sequence of user-table writes the API can issue. -/
def applyUserWrites (us : List User) (ws : List UserWrite) : List User :=
  ws.foldl applyUserWrite us

theorem length_le_applyUserWrites (ws : List UserWrite) (us : List User) :
    us.length ≤ (applyUserWrites us ws).length := by
  induction ws generalizing us with
  | nil => exact Nat.le_refl _
  | cons w ws ih =>
    refine Nat.le_trans ?_ (ih (applyUserWrite us w))
    cases w with
    | create u => simp [applyUserWrite]
    | update uid f => simp [applyUserWrite]

section SetupClaims

/-- C6: on a system with zero users, a well-formed bootstrap request succeeds
with 201, creating an active SUPER_ADMIN user and returning the signed
access and refresh credentials for it; and once the user table is nonempty,
initialSetup answers 403 Forbidden and changes nothing, whatever the request
and whatever further sequence of user-table writes (creates and updates, the
only shapes the API has) has happened since — the gate never reopens. -/
theorem initialSetup_use_once (s : AuthState) (rq : SetupRequest) :
    (s.users = [] → strTruthy rq.email = true → strTruthy rq.password = true →
      strTruthy rq.firstName = true → strTruthy rq.lastName = true →
      8 ≤ (rq.password.getD "").length →
      ∃ st2 out, initialSetup s rq = (HandlerResult.success 201 out, st2)
        ∧ out.user.role = "SUPER_ADMIN"
        ∧ out.user.active = true
        ∧ out.accessToken = generateAccessToken out.user.id
        ∧ out.refreshToken = generateRefreshToken out.user.id
        ∧ st2.users = s.users ++ [out.user]
        ∧ (out.refreshToken, out.user.id) ∈ st2.refreshTokens)
    ∧ (s.users ≠ [] → ∀ ws rts rq2,
        initialSetup ⟨applyUserWrites s.users ws, rts⟩ rq2 =
          (HandlerResult.failure 403 "Setup already completed. Users already exist.",
            ⟨applyUserWrites s.users ws, rts⟩)) := by
  constructor
  · intro hempty he hp hf hl hlen
    have hstep : initialSetup s rq =
        (HandlerResult.success 201
          ⟨generateAccessToken (freshUserId s), generateRefreshToken (freshUserId s),
            ⟨freshUserId s, rq.email.getD "", hashPassword (rq.password.getD ""),
              rq.firstName.getD "", rq.lastName.getD "", "SUPER_ADMIN", none, true⟩⟩,
          ⟨s.users ++ [⟨freshUserId s, rq.email.getD "", hashPassword (rq.password.getD ""),
              rq.firstName.getD "", rq.lastName.getD "", "SUPER_ADMIN", none, true⟩],
            s.refreshTokens ++ [(generateRefreshToken (freshUserId s), freshUserId s)]⟩) := by
      unfold initialSetup
      rw [if_neg (by simp [hempty]), if_neg (by simp [he, hp, hf, hl]),
        if_neg (by omega)]
    exact ⟨_, _, hstep, rfl, rfl, rfl, rfl, rfl, by simp⟩
  · intro hne ws rts rq2
    have hpos : 0 < s.users.length := List.length_pos.mpr hne
    have hle := length_le_applyUserWrites ws s.users
    unfold initialSetup
    rw [if_pos (by simpa using Nat.lt_of_lt_of_le hpos hle)]

/-- C6 witness: the first bootstrap on an empty system succeeds with a
SUPER_ADMIN; after it (and a further created user and a deactivating
update), a second bootstrap is answered 403 with the state unchanged. -/
theorem initialSetup_use_once_witness :
    (∃ st2 out,
      initialSetup ⟨[], []⟩
        ⟨some "root@hms.test", some "longpassword", some "Ada", some "Lovelace"⟩ =
        (HandlerResult.success 201 out, st2)
      ∧ out.user.role = "SUPER_ADMIN"
      ∧ out.user.active = true
      ∧ out.accessToken = generateAccessToken out.user.id
      ∧ out.refreshToken = generateRefreshToken out.user.id
      ∧ st2.users = [] ++ [out.user]
      ∧ (out.refreshToken, out.user.id) ∈ st2.refreshTokens)
    ∧ initialSetup
        ⟨applyUserWrites
          [⟨"user-0", "root@hms.test", "hashed:longpassword", "Ada", "Lovelace",
            "SUPER_ADMIN", none, true⟩]
          [UserWrite.create ⟨"u2", "n@hms.test", "hashed:pw", "Nur", "Se",
              "NURSE", some "H1", true⟩,
           UserWrite.update "u2" (fun u => { u with active := false })], []⟩
        ⟨some "again@hms.test", some "longpassword", some "Eve", some "Adams"⟩ =
      (HandlerResult.failure 403 "Setup already completed. Users already exist.",
        ⟨applyUserWrites
          [⟨"user-0", "root@hms.test", "hashed:longpassword", "Ada", "Lovelace",
            "SUPER_ADMIN", none, true⟩]
          [UserWrite.create ⟨"u2", "n@hms.test", "hashed:pw", "Nur", "Se",
              "NURSE", some "H1", true⟩,
           UserWrite.update "u2" (fun u => { u with active := false })], []⟩) := by
  constructor
  · exact (initialSetup_use_once ⟨[], []⟩
      ⟨some "root@hms.test", some "longpassword", some "Ada", some "Lovelace"⟩).1
      rfl (by decide) (by decide) (by decide) (by decide) (by decide)
  · exact (initialSetup_use_once
      ⟨[⟨"user-0", "root@hms.test", "hashed:longpassword", "Ada", "Lovelace",
          "SUPER_ADMIN", none, true⟩], []⟩
      ⟨some "x", some "x", some "x", some "x"⟩).2 (by simp)
      [UserWrite.create ⟨"u2", "n@hms.test", "hashed:pw", "Nur", "Se",
          "NURSE", some "H1", true⟩,
       UserWrite.update "u2" (fun u => { u with active := false })] []
      ⟨some "again@hms.test", some "longpassword", some "Eve", some "Adams"⟩

end SetupClaims
